import Mathlib

/-!
Shallow embedding of the PX4 commander state-machine helpers
(`src/modules/commander/state_machine_helper.cpp`) and proofs about them.

The C functions mutate `vehicle_status_s` and `actuator_armed_s` through
pointers; here each function returns the transition result together with the
updated records.  Diagnostic emission (mavlink logging, warnx) is output-only
and does not feed back into the state, so it is not modelled.  Enumeration
types mirror the C enums constructor for constructor.
-/

/-- Result type of every transition operation (`transition_result_t`). -/
inductive transition_result_t
  | TRANSITION_DENIED
  | TRANSITION_NOT_CHANGED
  | TRANSITION_CHANGED
deriving DecidableEq

/-- The seven arming states (`arming_state_t`); declaration order matches the
C enum, with `ARMING_STATE_INIT = 0` and `ARMING_STATE_IN_AIR_RESTORE`
the last value before `ARMING_STATE_MAX = 7`. -/
inductive arming_state_t
  | ARMING_STATE_INIT
  | ARMING_STATE_STANDBY
  | ARMING_STATE_ARMED
  | ARMING_STATE_ARMED_ERROR
  | ARMING_STATE_STANDBY_ERROR
  | ARMING_STATE_REBOOT
  | ARMING_STATE_IN_AIR_RESTORE
deriving DecidableEq

/-- Numeric value of an arming state in the C enum layout, used where the C
code indexes arrays with an `arming_state_t`. -/
def arming_state_t.toNat : arming_state_t → Nat
  | .ARMING_STATE_INIT => 0
  | .ARMING_STATE_STANDBY => 1
  | .ARMING_STATE_ARMED => 2
  | .ARMING_STATE_ARMED_ERROR => 3
  | .ARMING_STATE_STANDBY_ERROR => 4
  | .ARMING_STATE_REBOOT => 5
  | .ARMING_STATE_IN_AIR_RESTORE => 6

/-- Hardware-in-the-loop state (`hil_state_t`). -/
inductive hil_state_t
  | HIL_STATE_OFF
  | HIL_STATE_ON
deriving DecidableEq

/-- Main (flight-mode) state (`main_state_t`); the enumerators are the ones
the code switches over, plus the `MAIN_STATE_MAX` sentinel. -/
inductive main_state_t
  | MAIN_STATE_MANUAL
  | MAIN_STATE_ALTCTL
  | MAIN_STATE_POSCTL
  | MAIN_STATE_AUTO_MISSION
  | MAIN_STATE_AUTO_LOITER
  | MAIN_STATE_AUTO_RTL
  | MAIN_STATE_ACRO
  | MAIN_STATE_MAX
deriving DecidableEq

/-- Navigation state (`navigation_state_t`); the values written by
`set_nav_state`. -/
inductive navigation_state_t
  | NAVIGATION_STATE_MANUAL
  | NAVIGATION_STATE_ACRO
  | NAVIGATION_STATE_ALTCTL
  | NAVIGATION_STATE_POSCTL
  | NAVIGATION_STATE_AUTO_MISSION
  | NAVIGATION_STATE_AUTO_LOITER
  | NAVIGATION_STATE_AUTO_RTL
  | NAVIGATION_STATE_LAND
  | NAVIGATION_STATE_DESCEND
  | NAVIGATION_STATE_TERMINATION
deriving DecidableEq

/-- The fields of `struct vehicle_status_s` read or written by the helper
functions.  `condition_system_sensors_inited` embeds the C field
`condition_system_sensors_initialized`. -/
structure vehicle_status_s where
  arming_state : arming_state_t
  main_state : main_state_t
  nav_state : navigation_state_t
  hil_state : hil_state_t
  failsafe : Bool
  condition_local_position_valid : Bool
  condition_global_position_valid : Bool
  condition_local_altitude_valid : Bool
  condition_home_position_valid : Bool
  condition_system_sensors_inited : Bool
  is_rotary_wing : Bool
  rc_signal_lost : Bool
  data_link_lost : Bool
  timestamp : Nat
deriving DecidableEq

/-- `struct safety_s`: the physical safety-switch inputs. -/
structure safety_s where
  safety_switch_available : Bool
  safety_off : Bool
deriving DecidableEq

/-- `struct actuator_armed_s`: the armed-status record consumed by the
actuator output subsystem. -/
structure actuator_armed_s where
  armed : Bool
  ready_to_arm : Bool
  lockdown : Bool
deriving DecidableEq

/-- The `arming_transitions` table: rows are the requested new state, columns
the current state, in enum order INIT, STANDBY, ARMED, ARMED_ERROR,
STANDBY_ERROR, REBOOT, IN_AIR_RESTORE. -/
def arming_transitions : List (List Bool) := [
  [true,  true,  false, false, false, false, false],
  [true,  true,  true,  true,  false, false, false],
  [false, true,  true,  false, false, false, true ],
  [false, false, true,  true,  false, false, false],
  [true,  true,  false, true,  true,  false, false],
  [true,  true,  false, false, true,  true,  true ],
  [false, false, false, false, false, false, false]
]

/-- The raw array access `arming_transitions[new_state][current]`: `none`
models a read outside the bounds of the table. -/
def arming_transitions_lookup (new_state current : Nat) : Option Bool :=
  match arming_transitions.get? new_state with
  | none => none
  | some row => row.get? current

/-- Table lookup for in-range states, as used on the happy path of
`arming_state_transition` (C line 122). -/
def arming_transition_allowed (new_state current : arming_state_t) : Bool :=
  (arming_transitions_lookup new_state.toNat current.toNat).getD false

/-- Embedding of `arming_state_transition` (C lines 90-176).  Returns the
transition result together with the updated status and armed records (the C
function mutates them through pointers).  The mavlink diagnostics are not
modelled: they do not affect state or result. -/
def arming_state_transition (status : vehicle_status_s) (safety : safety_s)
    (new_arming_state : arming_state_t) (armed : actuator_armed_s) :
    transition_result_t × vehicle_status_s × actuator_armed_s :=
  if new_arming_state = status.arming_state then
    (.TRANSITION_NOT_CHANGED, status, armed)
  else
    let armed := { armed with lockdown := decide (status.hil_state = .HIL_STATE_ON) }
    let valid_transition := arming_transition_allowed new_arming_state status.arming_state
    let secondary : arming_state_t × Bool :=
      if valid_transition then
        if new_arming_state = .ARMING_STATE_ARMED then
          if status.arming_state ≠ .ARMING_STATE_IN_AIR_RESTORE ∧
              status.hil_state = .HIL_STATE_OFF ∧
              safety.safety_switch_available ∧ ¬ safety.safety_off then
            (new_arming_state, false)
          else
            (new_arming_state, valid_transition)
        else if new_arming_state = .ARMING_STATE_STANDBY ∧
            status.arming_state = .ARMING_STATE_ARMED_ERROR then
          (.ARMING_STATE_STANDBY_ERROR, valid_transition)
        else
          (new_arming_state, valid_transition)
      else
        (new_arming_state, valid_transition)
    let new_arming_state := secondary.1
    let valid_transition := secondary.2
    let valid_transition :=
      if status.hil_state = .HIL_STATE_ON ∧ new_arming_state = .ARMING_STATE_STANDBY then
        true
      else valid_transition
    let valid_transition :=
      if new_arming_state = .ARMING_STATE_STANDBY ∧
          ¬ status.condition_system_sensors_inited then
        false
      else valid_transition
    if valid_transition then
      let armed := { armed with
        armed := decide (new_arming_state = .ARMING_STATE_ARMED ∨
          new_arming_state = .ARMING_STATE_ARMED_ERROR),
        ready_to_arm := decide (new_arming_state = .ARMING_STATE_ARMED ∨
          new_arming_state = .ARMING_STATE_STANDBY) }
      (.TRANSITION_CHANGED, { status with arming_state := new_arming_state }, armed)
    else
      (.TRANSITION_DENIED, status, armed)

/-- Embedding of `is_safe` (C lines 178-190).  The `status` argument is kept
even though the body never reads it, mirroring the C signature. -/
def is_safe (status : vehicle_status_s) (safety : safety_s)
    (armed : actuator_armed_s) : Bool :=
  if !armed.armed || (armed.armed && armed.lockdown) ||
      (safety.safety_switch_available && !safety.safety_off) then
    true
  else
    false

/-- Embedding of `main_state_transition` (C lines 192-250).  `ret` is first
computed per requested mode (defaulting to `TRANSITION_DENIED`), then a
granted request is committed, or downgraded to `TRANSITION_NOT_CHANGED` when
the mode is already active. -/
def main_state_transition (status : vehicle_status_s)
    (new_main_state : main_state_t) :
    transition_result_t × vehicle_status_s :=
  let ret : transition_result_t :=
    match new_main_state with
    | .MAIN_STATE_MANUAL => .TRANSITION_CHANGED
    | .MAIN_STATE_ACRO => .TRANSITION_CHANGED
    | .MAIN_STATE_ALTCTL =>
      if !status.is_rotary_wing ||
          (status.condition_local_altitude_valid ||
            status.condition_global_position_valid) then
        .TRANSITION_CHANGED
      else .TRANSITION_DENIED
    | .MAIN_STATE_POSCTL =>
      if status.condition_local_position_valid ||
          status.condition_global_position_valid then
        .TRANSITION_CHANGED
      else .TRANSITION_DENIED
    | .MAIN_STATE_AUTO_MISSION =>
      if status.condition_global_position_valid then .TRANSITION_CHANGED
      else .TRANSITION_DENIED
    | .MAIN_STATE_AUTO_LOITER =>
      if status.condition_global_position_valid then .TRANSITION_CHANGED
      else .TRANSITION_DENIED
    | .MAIN_STATE_AUTO_RTL =>
      if status.condition_global_position_valid &&
          status.condition_home_position_valid then
        .TRANSITION_CHANGED
      else .TRANSITION_DENIED
    | .MAIN_STATE_MAX => .TRANSITION_DENIED
  if ret = .TRANSITION_CHANGED then
    if status.main_state ≠ new_main_state then
      (.TRANSITION_CHANGED, { status with main_state := new_main_state })
    else
      (.TRANSITION_NOT_CHANGED, status)
  else
    (ret, status)

/-- Embedding of `hil_state_transition` (C lines 255-364).  The sensor-device
enumeration on the `HIL_STATE_ON` path is external filesystem I/O; its one
state-relevant outcome, whether `opendir` of the device root succeeded, is the
`opendir_ok` parameter.  `now` stands for `hrt_absolute_time()`.  The
`status_pub` publication channel carries no state back into the function. -/
def hil_state_transition (opendir_ok : Bool) (now : Nat)
    (new_state : hil_state_t) (current_status : vehicle_status_s) :
    transition_result_t × vehicle_status_s :=
  let ret : transition_result_t :=
    if current_status.hil_state = new_state then
      .TRANSITION_NOT_CHANGED
    else
      match new_state with
      | .HIL_STATE_OFF => .TRANSITION_DENIED
      | .HIL_STATE_ON =>
        if current_status.arming_state = .ARMING_STATE_INIT ∨
            current_status.arming_state = .ARMING_STATE_STANDBY ∨
            current_status.arming_state = .ARMING_STATE_STANDBY_ERROR then
          if opendir_ok then .TRANSITION_CHANGED else .TRANSITION_DENIED
        else
          .TRANSITION_DENIED
  if ret = .TRANSITION_CHANGED then
    (ret, { current_status with hil_state := new_state, timestamp := now })
  else
    (ret, current_status)

/-- Embedding of `set_nav_state` (C lines 369-474).  Returns whether
`nav_state` changed, together with the updated status. -/
def set_nav_state (status : vehicle_status_s) : Bool × vehicle_status_s :=
  let nav_state_old := status.nav_state
  let armed := decide (status.arming_state = .ARMING_STATE_ARMED ∨
    status.arming_state = .ARMING_STATE_ARMED_ERROR)
  let status := { status with failsafe := false }
  let status :=
    match status.main_state with
    | .MAIN_STATE_ACRO | .MAIN_STATE_MANUAL
    | .MAIN_STATE_ALTCTL | .MAIN_STATE_POSCTL =>
      if status.rc_signal_lost && armed then
        { status with failsafe := true }
      else
        match status.main_state with
        | .MAIN_STATE_ACRO =>
          { status with nav_state := .NAVIGATION_STATE_ACRO }
        | .MAIN_STATE_MANUAL =>
          { status with nav_state := .NAVIGATION_STATE_MANUAL }
        | .MAIN_STATE_ALTCTL =>
          { status with nav_state := .NAVIGATION_STATE_ALTCTL }
        | .MAIN_STATE_POSCTL =>
          { status with nav_state := .NAVIGATION_STATE_POSCTL }
        | _ =>
          { status with nav_state := .NAVIGATION_STATE_MANUAL }
    | .MAIN_STATE_AUTO_MISSION =>
      if (status.data_link_lost || !status.condition_global_position_valid) &&
          armed then
        { status with failsafe := true }
      else
        if armed then
          { status with nav_state := .NAVIGATION_STATE_AUTO_MISSION }
        else
          { status with nav_state := .NAVIGATION_STATE_AUTO_LOITER }
    | .MAIN_STATE_AUTO_LOITER =>
      if (status.data_link_lost || !status.condition_local_position_valid) &&
          armed then
        { status with failsafe := true }
      else
        { status with nav_state := .NAVIGATION_STATE_AUTO_LOITER }
    | .MAIN_STATE_AUTO_RTL =>
      if (!status.condition_global_position_valid ||
          !status.condition_home_position_valid) && armed then
        { status with failsafe := true }
      else
        if armed then
          { status with nav_state := .NAVIGATION_STATE_AUTO_RTL }
        else
          { status with nav_state := .NAVIGATION_STATE_AUTO_LOITER }
    | _ => status
  let status :=
    if status.failsafe then
      if status.condition_global_position_valid &&
          status.condition_home_position_valid then
        { status with nav_state := .NAVIGATION_STATE_AUTO_RTL }
      else if status.condition_local_position_valid then
        { status with nav_state := .NAVIGATION_STATE_LAND }
      else if status.condition_local_altitude_valid then
        { status with nav_state := .NAVIGATION_STATE_DESCEND }
      else
        { status with nav_state := .NAVIGATION_STATE_TERMINATION }
    else
      status
  (decide (status.nav_state ≠ nav_state_old), status)

/-- Embedding of `arming_state_transition` with the requested state as the
raw numeric value the C parameter carries, exposing the unchecked array
indexing of C line 122: `none` models a read outside the bounds of the
`arming_transitions` table.  The committed arming state is returned as its
numeric value.  Apart from the indexing, the body transcribes the same C
lines as `arming_state_transition` (the comparisons against
`ARMING_STATE_ARMED` = 2, `ARMING_STATE_STANDBY` = 1,
`ARMING_STATE_ARMED_ERROR` = 3, `ARMING_STATE_STANDBY_ERROR` = 4,
`ARMING_STATE_IN_AIR_RESTORE` = 6 become numeric). -/
def arming_state_transition_raw (status : vehicle_status_s) (safety : safety_s)
    (new_arming_state : Nat) (armed : actuator_armed_s) :
    Option (transition_result_t × Nat × actuator_armed_s) :=
  if new_arming_state = status.arming_state.toNat then
    some (.TRANSITION_NOT_CHANGED, status.arming_state.toNat, armed)
  else
    let armed := { armed with lockdown := decide (status.hil_state = .HIL_STATE_ON) }
    match arming_transitions_lookup new_arming_state status.arming_state.toNat with
    | none => none
    | some valid_transition =>
      let secondary : Nat × Bool :=
        if valid_transition then
          if new_arming_state = 2 then
            if status.arming_state.toNat ≠ 6 ∧
                status.hil_state = .HIL_STATE_OFF ∧
                safety.safety_switch_available ∧ ¬ safety.safety_off then
              (new_arming_state, false)
            else
              (new_arming_state, valid_transition)
          else if new_arming_state = 1 ∧ status.arming_state.toNat = 3 then
            (4, valid_transition)
          else
            (new_arming_state, valid_transition)
        else
          (new_arming_state, valid_transition)
      let new_arming_state := secondary.1
      let valid_transition := secondary.2
      let valid_transition :=
        if status.hil_state = .HIL_STATE_ON ∧ new_arming_state = 1 then
          true
        else valid_transition
      let valid_transition :=
        if new_arming_state = 1 ∧ ¬ status.condition_system_sensors_inited then
          false
        else valid_transition
      if valid_transition then
        let armed := { armed with
          armed := decide (new_arming_state = 2 ∨ new_arming_state = 3),
          ready_to_arm := decide (new_arming_state = 2 ∨ new_arming_state = 1) }
        some (.TRANSITION_CHANGED, new_arming_state, armed)
      else
        some (.TRANSITION_DENIED, status.arming_state.toNat, armed)

/-- A concrete baseline vehicle status used by witnesses and
counterexamples: disarmed on the ground, no HIL, sensors initialized,
no position validity, links healthy. -/
def status0 : vehicle_status_s :=
  { arming_state := .ARMING_STATE_STANDBY, main_state := .MAIN_STATE_MANUAL,
    nav_state := .NAVIGATION_STATE_MANUAL, hil_state := .HIL_STATE_OFF,
    failsafe := false, condition_local_position_valid := false,
    condition_global_position_valid := false,
    condition_local_altitude_valid := false,
    condition_home_position_valid := false,
    condition_system_sensors_inited := true, is_rotary_wing := true,
    rc_signal_lost := false, data_link_lost := false, timestamp := 0 }

/-- A concrete safety record: switch present, still engaged (not safety-off). -/
def safety0 : safety_s :=
  { safety_switch_available := true, safety_off := false }

/-- A concrete armed-status record: fully disarmed, no lockdown. -/
def armed0 : actuator_armed_s :=
  { armed := false, ready_to_arm := false, lockdown := false }

/-- Claim C7: for every arming state S, every safety input and every
armed-status record, requesting the state the vehicle is already in returns
`TRANSITION_NOT_CHANGED` and leaves both the vehicle status and the
armed-status record unmodified, independent of the transition table. -/
theorem arming_same_state_not_changed (status : vehicle_status_s)
    (safety : safety_s) (armed : actuator_armed_s) :
    arming_state_transition status safety status.arming_state armed =
      (.TRANSITION_NOT_CHANGED, status, armed) := by
  simp [arming_state_transition]

/-- Claim C5: for every safety input (and every HIL and sensor condition),
requesting `ARMING_STATE_STANDBY` while the current state is
`ARMING_STATE_ARMED_ERROR` returns `TRANSITION_CHANGED` and commits
`ARMING_STATE_STANDBY_ERROR`, never plain `ARMING_STATE_STANDBY`. -/
theorem standby_from_armed_error_redirected (status : vehicle_status_s)
    (safety : safety_s) (armed : actuator_armed_s)
    (h : status.arming_state = .ARMING_STATE_ARMED_ERROR) :
    (arming_state_transition status safety .ARMING_STATE_STANDBY armed).1 =
        .TRANSITION_CHANGED ∧
      (arming_state_transition status safety
        .ARMING_STATE_STANDBY armed).2.1.arming_state =
        .ARMING_STATE_STANDBY_ERROR := by
  simp [arming_state_transition, arming_transition_allowed,
    arming_transitions_lookup, arming_transitions, arming_state_t.toNat, h]

/-- Witness for C5 at a concrete input. -/
theorem standby_from_armed_error_redirected_witness :
    (arming_state_transition { status0 with arming_state := .ARMING_STATE_ARMED_ERROR }
        safety0 .ARMING_STATE_STANDBY armed0).1 = .TRANSITION_CHANGED ∧
      (arming_state_transition { status0 with arming_state := .ARMING_STATE_ARMED_ERROR }
        safety0 .ARMING_STATE_STANDBY armed0).2.1.arming_state =
        .ARMING_STATE_STANDBY_ERROR :=
  standby_from_armed_error_redirected
    { status0 with arming_state := .ARMING_STATE_ARMED_ERROR }
    safety0 armed0 rfl

/-- Claim C8: for every vehicle status currently in `HIL_STATE_ON`
(whatever its arming state), and whatever the device-enumeration outcome and
clock, requesting `HIL_STATE_OFF` returns `TRANSITION_DENIED` and leaves the
status, in particular `hil_state`, unchanged. -/
theorem hil_on_to_off_denied (opendir_ok : Bool) (now : Nat)
    (status : vehicle_status_s) (h : status.hil_state = .HIL_STATE_ON) :
    hil_state_transition opendir_ok now .HIL_STATE_OFF status =
      (.TRANSITION_DENIED, status) := by
  simp [hil_state_transition, h]

/-- Witness for C8 at a concrete input. -/
theorem hil_on_to_off_denied_witness :
    hil_state_transition true 5 .HIL_STATE_OFF
        { status0 with hil_state := .HIL_STATE_ON } =
      (.TRANSITION_DENIED, { status0 with hil_state := .HIL_STATE_ON }) :=
  hil_on_to_off_denied true 5 { status0 with hil_state := .HIL_STATE_ON } rfl

/-- Claim C10: `is_safe` does not depend on the vehicle status argument, and
its result is a function of only `armed.armed`, `armed.lockdown`,
`safety.safety_switch_available` and `safety.safety_off`: two calls whose
inputs agree on those four fields return the same result, whatever the two
vehicle statuses and the remaining fields. -/
theorem is_safe_depends_only_on_four_fields
    (s1 s2 : vehicle_status_s) (sa1 sa2 : safety_s)
    (ar1 ar2 : actuator_armed_s)
    (ha : ar1.armed = ar2.armed) (hl : ar1.lockdown = ar2.lockdown)
    (hsw : sa1.safety_switch_available = sa2.safety_switch_available)
    (hso : sa1.safety_off = sa2.safety_off) :
    is_safe s1 sa1 ar1 = is_safe s2 sa2 ar2 := by
  simp [is_safe, ha, hl, hsw, hso]

/-- Witness for C10 at concrete inputs: two maximally different vehicle
statuses, same four relevant fields. -/
theorem is_safe_depends_only_on_four_fields_witness :
    is_safe status0 safety0 armed0 =
      is_safe { status0 with
        arming_state := .ARMING_STATE_ARMED
        hil_state := .HIL_STATE_ON
        failsafe := true
        timestamp := 99 } safety0 armed0 :=
  is_safe_depends_only_on_four_fields status0
    { status0 with
      arming_state := .ARMING_STATE_ARMED
      hil_state := .HIL_STATE_ON
      failsafe := true
      timestamp := 99 }
    safety0 safety0 armed0 armed0 rfl rfl rfl rfl

/-- Counterexample to claim C1 as stated: a call that returns
`TRANSITION_DENIED` can still mutate the armed-status record, because
`lockdown` is rewritten from `hil_state` before the transition is validated
(C lines 113-119).  Here a denied arming request (safety switch engaged)
clears a previously set `lockdown`. -/
theorem arming_denied_mutates_lockdown :
    (arming_state_transition status0 safety0 .ARMING_STATE_ARMED
        { armed0 with lockdown := true }).1 = .TRANSITION_DENIED ∧
      (arming_state_transition status0 safety0 .ARMING_STATE_ARMED
        { armed0 with lockdown := true }).2.2 ≠
        { armed0 with lockdown := true } := by decide

/-- Claim C1, amended: on every call that does not return
`TRANSITION_CHANGED`, the vehicle status and the `armed` and `ready_to_arm`
fields of the armed-status record are unmodified, and a
`TRANSITION_NOT_CHANGED` call leaves the whole armed-status record
unmodified; however, whenever the requested state differs from the current
one, `lockdown` is rewritten to whether HIL is on, even on a
`TRANSITION_DENIED` result. -/
theorem arming_non_changed_preserves_state (status : vehicle_status_s)
    (safety : safety_s) (new_arming_state : arming_state_t)
    (armed : actuator_armed_s) :
    ((arming_state_transition status safety new_arming_state armed).1 ≠
        .TRANSITION_CHANGED →
      (arming_state_transition status safety new_arming_state armed).2.1 =
          status ∧
        (arming_state_transition status safety new_arming_state armed).2.2.armed =
          armed.armed ∧
        (arming_state_transition status safety new_arming_state armed).2.2.ready_to_arm =
          armed.ready_to_arm) ∧
    ((arming_state_transition status safety new_arming_state armed).1 =
        .TRANSITION_NOT_CHANGED →
      (arming_state_transition status safety new_arming_state armed).2.2 =
        armed) ∧
    (new_arming_state ≠ status.arming_state →
      (arming_state_transition status safety new_arming_state armed).2.2.lockdown =
        decide (status.hil_state = .HIL_STATE_ON)) := by
  unfold arming_state_transition
  split
  · simp_all
  · dsimp only
    split_ifs <;> simp_all

/-- Witness for the amended C1 at a concrete input: a denied arming request
leaves the status and the armed and ready-to-arm bits intact. -/
theorem arming_non_changed_preserves_state_witness :
    (arming_state_transition status0 safety0 .ARMING_STATE_ARMED armed0).1 ≠
        .TRANSITION_CHANGED ∧
      (arming_state_transition status0 safety0 .ARMING_STATE_ARMED armed0).2.1 =
        status0 ∧
      (arming_state_transition status0 safety0 .ARMING_STATE_ARMED armed0).2.2.armed =
        armed0.armed :=
  ⟨by decide,
    ((arming_non_changed_preserves_state status0 safety0 .ARMING_STATE_ARMED
      armed0).1 (by decide)).1,
    ((arming_non_changed_preserves_state status0 safety0 .ARMING_STATE_ARMED
      armed0).1 (by decide)).2.1⟩

/-- Counterexample to claim C2 as stated: requesting `ARMING_STATE_STANDBY`
from `ARMING_STATE_ARMED_ERROR` with sensors uninitialized returns
`TRANSITION_CHANGED`, not `TRANSITION_DENIED`: the request is first
redirected to `ARMING_STATE_STANDBY_ERROR` (C line 139), after which the
sensor check (C line 149), which tests for a requested `STANDBY`, no longer
fires. -/
theorem standby_sensor_check_bypassed_from_armed_error :
    (arming_state_transition
        { status0 with
          arming_state := .ARMING_STATE_ARMED_ERROR
          condition_system_sensors_inited := false }
        safety0 .ARMING_STATE_STANDBY armed0).1 = .TRANSITION_CHANGED := by
  decide

/-- Claim C2, amended: for every current arming state other than
`ARMING_STATE_STANDBY` itself (an idempotent request) and
`ARMING_STATE_ARMED_ERROR` (where the request is redirected to
`ARMING_STATE_STANDBY_ERROR` before the sensor check), requesting
`ARMING_STATE_STANDBY` with sensors uninitialized returns
`TRANSITION_DENIED` and leaves `arming_state` unchanged, for every safety
input and every HIL state. -/
theorem standby_denied_without_sensors (status : vehicle_status_s)
    (safety : safety_s) (armed : actuator_armed_s)
    (hs : status.condition_system_sensors_inited = false)
    (h1 : status.arming_state ≠ .ARMING_STATE_STANDBY)
    (h2 : status.arming_state ≠ .ARMING_STATE_ARMED_ERROR) :
    (arming_state_transition status safety .ARMING_STATE_STANDBY armed).1 =
        .TRANSITION_DENIED ∧
      (arming_state_transition status safety .ARMING_STATE_STANDBY armed).2.1.arming_state =
        status.arming_state := by
  unfold arming_state_transition
  split
  · simp_all
  · dsimp only
    split_ifs <;> simp_all

/-- Witness for the amended C2 at a concrete input: standby request from
`ARMING_STATE_INIT` with sensors uninitialized is denied. -/
theorem standby_denied_without_sensors_witness :
    (arming_state_transition
        { status0 with
          arming_state := .ARMING_STATE_INIT
          condition_system_sensors_inited := false }
        safety0 .ARMING_STATE_STANDBY armed0).1 = .TRANSITION_DENIED :=
  (standby_denied_without_sensors
    { status0 with
      arming_state := .ARMING_STATE_INIT
      condition_system_sensors_inited := false }
    safety0 armed0 rfl (by decide) (by decide)).1

/-- Counterexample to claim C6 as stated: for a rotary-wing vehicle with a
valid local position but no local-altitude and no global-position estimate,
the claimed grant condition (not rotary-wing, or local or global position
valid) holds, yet `main_state_transition` denies `MAIN_STATE_ALTCTL`: the
code tests `condition_local_altitude_valid` (C line 208), not local
position validity. -/
theorem altctl_denied_despite_local_position :
    ((!({ status0 with condition_local_position_valid := true }).is_rotary_wing ||
        ({ status0 with condition_local_position_valid := true }).condition_local_position_valid ||
        ({ status0 with condition_local_position_valid := true }).condition_global_position_valid) =
      true) ∧
      (main_state_transition { status0 with condition_local_position_valid := true }
        .MAIN_STATE_ALTCTL).1 = .TRANSITION_DENIED := by decide

/-- Claim C6, amended: `main_state_transition` grants a request for
`MAIN_STATE_ALTCTL` exactly when the vehicle is not a rotary-wing type, or
local-altitude or global-position validity is present (the local estimate
consulted is the altitude estimate, not the local position estimate); an
ungranted request returns `TRANSITION_DENIED` and leaves the status, in
particular `main_state`, unchanged. -/
theorem altctl_granted_iff_altitude_estimate (status : vehicle_status_s) :
    ((main_state_transition status .MAIN_STATE_ALTCTL).1 ≠ .TRANSITION_DENIED ↔
      (!status.is_rotary_wing ||
        (status.condition_local_altitude_valid ||
          status.condition_global_position_valid)) = true) ∧
    ((main_state_transition status .MAIN_STATE_ALTCTL).1 = .TRANSITION_DENIED →
      (main_state_transition status .MAIN_STATE_ALTCTL).2 = status) := by
  unfold main_state_transition
  dsimp only
  split_ifs <;> simp_all

/-- Witness for the amended C6 at a concrete input: rotary wing with no
altitude or global estimate is denied and unchanged. -/
theorem altctl_granted_iff_altitude_estimate_witness :
    (main_state_transition status0 .MAIN_STATE_ALTCTL).2 = status0 :=
  (altctl_granted_iff_altitude_estimate status0).2 (by decide)

/-- Claim C3: a requested transition to `ARMING_STATE_ARMED` from a
different state is denied whenever the current state is not
`ARMING_STATE_IN_AIR_RESTORE`, HIL is off, a physical safety switch is
available and it has not been switched off; and in particular, requesting
it from `ARMING_STATE_STANDBY` with the switch disengaged (safety off)
returns `TRANSITION_CHANGED` with `armed.armed` and `armed.ready_to_arm`
both true afterwards. -/
theorem armed_requires_safety_switch :
    (∀ status safety armed,
        status.arming_state ≠ .ARMING_STATE_ARMED →
        status.arming_state ≠ .ARMING_STATE_IN_AIR_RESTORE →
        status.hil_state = .HIL_STATE_OFF →
        safety.safety_switch_available = true →
        safety.safety_off = false →
        (arming_state_transition status safety .ARMING_STATE_ARMED armed).1 =
          .TRANSITION_DENIED) ∧
    (∀ status safety armed,
        status.arming_state = .ARMING_STATE_STANDBY →
        status.hil_state = .HIL_STATE_OFF →
        safety.safety_switch_available = true →
        safety.safety_off = true →
        (arming_state_transition status safety .ARMING_STATE_ARMED armed).1 =
            .TRANSITION_CHANGED ∧
          (arming_state_transition status safety .ARMING_STATE_ARMED armed).2.2.armed =
            true ∧
          (arming_state_transition status safety .ARMING_STATE_ARMED armed).2.2.ready_to_arm =
            true) := by
  constructor
  · intro status safety armed h1 h2 hh hsw hso
    unfold arming_state_transition
    split
    · simp_all
    · dsimp only
      split_ifs <;> simp_all
  · intro status safety armed h1 hh hsw hso
    unfold arming_state_transition
    split
    · simp_all
    · dsimp only
      split_ifs <;>
        simp_all [arming_transition_allowed, arming_transitions_lookup,
          arming_transitions, arming_state_t.toNat]

/-- Witness for C3 at concrete inputs: from standby with the switch engaged
the arming request is denied; with the switch disengaged it is granted. -/
theorem armed_requires_safety_switch_witness :
    (arming_state_transition status0 safety0 .ARMING_STATE_ARMED armed0).1 =
        .TRANSITION_DENIED ∧
      (arming_state_transition status0 { safety0 with safety_off := true }
          .ARMING_STATE_ARMED armed0).1 = .TRANSITION_CHANGED ∧
      (arming_state_transition status0 { safety0 with safety_off := true }
          .ARMING_STATE_ARMED armed0).2.2.armed = true :=
  ⟨armed_requires_safety_switch.1 status0 safety0 armed0 (by decide) (by decide)
      rfl rfl rfl,
    (armed_requires_safety_switch.2 status0 { safety0 with safety_off := true }
      armed0 rfl rfl rfl rfl).1,
    (armed_requires_safety_switch.2 status0 { safety0 with safety_off := true }
      armed0 rfl rfl rfl rfl).2.1⟩

set_option maxHeartbeats 2000000 in
/-- Claim C4: whenever `set_nav_state` leaves the failsafe flag set, the
resulting `nav_state` is chosen by the fixed priority cascade
(C lines 458-471): `AUTO_RTL` if global and home position are both valid,
else `LAND` if local position is valid, else `DESCEND` if local altitude is
valid, else `TERMINATION`. -/
theorem failsafe_selects_priority_cascade (status : vehicle_status_s)
    (h : (set_nav_state status).2.failsafe = true) :
    (set_nav_state status).2.nav_state =
      (if status.condition_global_position_valid &&
          status.condition_home_position_valid then
        .NAVIGATION_STATE_AUTO_RTL
      else if status.condition_local_position_valid then
        .NAVIGATION_STATE_LAND
      else if status.condition_local_altitude_valid then
        .NAVIGATION_STATE_DESCEND
      else
        .NAVIGATION_STATE_TERMINATION) := by
  obtain ⟨as, ms, ns, hs, fs, lp, gp, la, hp, si, w, rc, dl, ts⟩ := status
  cases ms <;>
    dsimp only [set_nav_state] at h ⊢ <;>
    split_ifs at h ⊢ <;> simp_all

/-- Witness for C4 at a concrete input: an armed manual-mode vehicle with a
lost RC link and no position validity enters failsafe and the cascade
bottoms out at `TERMINATION`. -/
theorem failsafe_selects_priority_cascade_witness :
    (set_nav_state { status0 with
        arming_state := .ARMING_STATE_ARMED
        rc_signal_lost := true }).2.nav_state =
      (if ({ status0 with
            arming_state := .ARMING_STATE_ARMED
            rc_signal_lost := true } : vehicle_status_s).condition_global_position_valid &&
          ({ status0 with
            arming_state := .ARMING_STATE_ARMED
            rc_signal_lost := true } : vehicle_status_s).condition_home_position_valid then
        .NAVIGATION_STATE_AUTO_RTL
      else if ({ status0 with
          arming_state := .ARMING_STATE_ARMED
          rc_signal_lost := true } : vehicle_status_s).condition_local_position_valid then
        .NAVIGATION_STATE_LAND
      else if ({ status0 with
          arming_state := .ARMING_STATE_ARMED
          rc_signal_lost := true } : vehicle_status_s).condition_local_altitude_valid then
        .NAVIGATION_STATE_DESCEND
      else
        .NAVIGATION_STATE_TERMINATION) :=
  failsafe_selects_priority_cascade
    { status0 with
      arming_state := .ARMING_STATE_ARMED
      rc_signal_lost := true }
    (by decide)

/-- Counterexample to claim C9 as stated: with the requested arming state
carrying the out-of-range value 7 (`ARMING_STATE_MAX`, one past the last
defined state), the unchecked table access
`arming_transitions[new_arming_state][current]` of C line 122 falls outside
the bounds of the 7-row table (`none` in the embedding), so the call has no
defined in-bounds result. -/
theorem arming_out_of_range_reads_out_of_bounds :
    arming_transitions_lookup 7 status0.arming_state.toNat = none ∧
      arming_state_transition_raw status0 safety0 7 armed0 = none := by decide

/-- Claim C9, amended: `arming_state_transition` resolves every input whose
requested arming state is one of the seven defined values (numeric value
below 7) to a result, one of the three transition outcomes, with every table
access in bounds; for a requested value of 7 or above the table access is
out of bounds and no in-bounds result exists. -/
theorem arming_raw_total_iff_in_range (status : vehicle_status_s)
    (safety : safety_s) (armed : actuator_armed_s) (n : Nat) :
    (n < 7 →
      (arming_state_transition_raw status safety n armed).isSome = true) ∧
    (7 ≤ n → arming_state_transition_raw status safety n armed = none) := by
  constructor
  · intro hn
    interval_cases n <;>
      cases h : status.arming_state <;>
        simp [arming_state_transition_raw, arming_transitions_lookup,
          arming_transitions, arming_state_t.toNat, h] <;>
        split_ifs <;> simp
  · intro hn
    obtain ⟨k, rfl⟩ : ∃ k, n = k + 7 := ⟨n - 7, by omega⟩
    have h1 : ¬ (k + 7 = status.arming_state.toNat) := by
      cases status.arming_state <;> simp [arming_state_t.toNat]
    have h2 : arming_transitions[k + 7]? = none := rfl
    simp [arming_state_transition_raw, arming_transitions_lookup, h1, h2]

/-- Witness for the amended C9 at concrete inputs: an in-range request
resolves to a result, a request one past the table does not. -/
theorem arming_raw_total_iff_in_range_witness :
    (arming_state_transition_raw status0 safety0 2 armed0).isSome = true ∧
      arming_state_transition_raw status0 safety0 9 armed0 = none :=
  ⟨(arming_raw_total_iff_in_range status0 safety0 armed0 2).1 (by decide),
    (arming_raw_total_iff_in_range status0 safety0 armed0 9).2 (by decide)⟩
